import Mathlib

/-!
Verification of the `flet_tray.tray` helper module (file `flet_tray/tray.py`).

The module's logic is embedded shallowly:

* Python values that flow through the menu normaliser, the action registry
  and the extension-event handler are modelled by `PyVal` (`None`, strings,
  booleans, integers, lists and string-keyed dicts, with Python truthiness).
* A loosely-typed menu description record (a Python dict with the recognised
  keys `text`/`label`/`title`/`action`/`disabled`/`checked`/`icon` and
  `items`/`children`) is modelled by `MenuRec`; a key that is absent behaves
  exactly like a key bound to `None` in every code path (`dict.get` returns
  `None`), so both are represented by `PyVal.vNone` / `Option.none`.
  Unrecognised keys are never consulted by the code and are not represented.
* User callbacks and the previous extension-event handler are external
  collaborators: they are modelled by an identity (`id`) together with their
  observable effect (`raises`, the exception message they raise on a given
  payload, if any).  Dispatching produces a trace of events (`Ev`): which
  callback was invoked with which payload, and which diagnostic lines were
  printed.  Build/debug prints of the menu builder carry no information used
  by any claim and are not traced.
-/

namespace FletTray

/-- A Python value as it flows through the tray helper. -/
inductive PyVal where
  | vNone : PyVal
  | vStr (s : String) : PyVal
  | vBool (b : Bool) : PyVal
  | vInt (n : Int) : PyVal
  | vList (l : List PyVal) : PyVal
  | vDict (d : List (String × PyVal)) : PyVal

/-- Python truthiness of a `PyVal` (`bool(v)`). -/
def truthy : PyVal → Bool
  | .vNone => false
  | .vStr s => !(s == "")
  | .vBool b => b
  | .vInt n => !(n == 0)
  | .vList l => !l.isEmpty
  | .vDict d => !d.isEmpty

/-- Python `a or b`: `a` when truthy, otherwise `b`. -/
def pyOr (a b : PyVal) : PyVal := if truthy a then a else b

/-- Python `d.get(k)` on a string-keyed dict: the bound value, or `None`. -/
def dictGet (d : List (String × PyVal)) (k : String) : PyVal :=
  match d.find? (fun kv => kv.1 == k) with
  | some kv => kv.2
  | none => .vNone

/-- A menu description record (`dict`) as consumed by `_normalise_menu`:
one field per recognised key.  A scalar field holds `vNone` when the key is
absent; `items`/`children` hold `none` when absent (or bound to `None`) and
`some l` when bound to a list of nested records. -/
inductive MenuRec where
  | mk (text label title action disabled checked icon : PyVal)
       (items children : Option (List MenuRec))

def MenuRec.text : MenuRec → PyVal
  | .mk t _ _ _ _ _ _ _ _ => t

def MenuRec.label : MenuRec → PyVal
  | .mk _ l _ _ _ _ _ _ _ => l

def MenuRec.title : MenuRec → PyVal
  | .mk _ _ ti _ _ _ _ _ _ => ti

def MenuRec.action : MenuRec → PyVal
  | .mk _ _ _ a _ _ _ _ _ => a

def MenuRec.disabled : MenuRec → PyVal
  | .mk _ _ _ _ d _ _ _ _ => d

def MenuRec.checked : MenuRec → PyVal
  | .mk _ _ _ _ _ c _ _ _ => c

def MenuRec.icon : MenuRec → PyVal
  | .mk _ _ _ _ _ _ i _ _ => i

def MenuRec.items : MenuRec → Option (List MenuRec)
  | .mk _ _ _ _ _ _ _ it _ => it

def MenuRec.children : MenuRec → Option (List MenuRec)
  | .mk _ _ _ _ _ _ _ _ ch => ch

/-- The `MenuNode` dataclass of `tray.py`: `text`, `action`, `disabled`,
`checked`, `children`, `icon`.  The dataclass annotations (`text: str`,
`action: Optional[str]`) are not enforced at runtime, so `text`, `action`
and `icon` hold whatever `PyVal` the normaliser stored. -/
inductive MenuNode where
  | mk (text : PyVal) (action : PyVal) (disabled checked : Bool)
       (children : List MenuNode) (icon : PyVal)

def MenuNode.text : MenuNode → PyVal
  | .mk t _ _ _ _ _ => t

def MenuNode.action : MenuNode → PyVal
  | .mk _ a _ _ _ _ => a

def MenuNode.disabled : MenuNode → Bool
  | .mk _ _ d _ _ _ => d

def MenuNode.checked : MenuNode → Bool
  | .mk _ _ _ c _ _ => c

def MenuNode.children : MenuNode → List MenuNode
  | .mk _ _ _ _ ch _ => ch

def MenuNode.icon : MenuNode → PyVal
  | .mk _ _ _ _ _ i => i

/-- Embeds `_normalise_menu(items)` of `tray.py`.

For each record: `label = item.get("text") or item.get("label") or
item.get("title") or "Menu item"`; `child_data = item.get("items")`, and if
that is falsy, `item.get("children")`; the node's children are
`_normalise_menu(child_data or [])`; `disabled`/`checked` are
`bool(item.get(...))`; `action` and `icon` are stored as retrieved. -/
def _normalise_menu : List MenuRec → List MenuNode
  | [] => []
  | .mk t lb ti a d c i itms chld :: rest =>
    MenuNode.mk
      (pyOr t (pyOr lb (pyOr ti (.vStr "Menu item"))))
      a (truthy d) (truthy c)
      (match itms, chld with
        | some (x :: xs), _ => _normalise_menu (x :: xs)
        | _, some ys => _normalise_menu ys
        | _, none => [])
      i
    :: _normalise_menu rest

/-- Embeds `menu_to_dict(items)` of `tray.py`: emit `text`, `action`, `disabled`,
`checked` for every node, plus `items` when the node has children. -/
def menu_to_dict : List MenuNode → List MenuRec
  | [] => []
  | .mk t a d c ch _ :: rest =>
    MenuRec.mk t .vNone .vNone a (.vBool d) (.vBool c) .vNone
      (match ch with
        | [] => none
        | x :: xs => some (menu_to_dict (x :: xs)))
      none
    :: menu_to_dict rest

/-- The module constant `EXTENSION_NAME = "tray"`. -/
def EXTENSION_NAME : String := "tray"

/-- An action callback held in the `_ACTIONS` registry.  Callbacks are
external collaborators; they are identified by `id`, and `raises payload`
is the exception message the callback raises when invoked with `payload`
(`none` when it returns normally). -/
structure Cb where
  id : Nat
  raises : PyVal → Option String

/-- The `_ACTIONS` registry: a mapping from action name to callback. -/
def Registry := String → Option Cb

def emptyRegistry : Registry := fun _ => none

/-- Embeds `register_action(name, fn)`: `if not name or not callable(fn): return;
_ACTIONS[name] = fn`.  Every `Cb` is callable by construction, so only the
empty-name guard is represented. -/
def register_action (name : String) (fn : Cb) (reg : Registry) : Registry :=
  if name = "" then reg
  else fun m => if m = name then some fn else reg m

/-- Embeds `_ACTIONS.get(k)` for a Python key `k`: the registry holds only string
keys, so a non-string (hashable) key misses. -/
def lookupAction (reg : Registry) (k : PyVal) : Option Cb :=
  match k with
  | .vStr s => reg s
  | _ => none

/-- An extension event, as probed by `_handle_ext` via `getattr`: an absent
attribute yields `None`, represented by `vNone`. -/
structure ExtEvent where
  extension_name : PyVal
  name : PyVal
  action : PyVal
  data : PyVal

/-- The observable events of a dispatch: callback invocations and the
diagnostic lines printed by the dispatch code. -/
inductive Ev where
  | invoked (id : Nat) (payload : PyVal)
  | prevInvoked (id : Nat) (evt : ExtEvent)
  | logNoHandler (name : PyVal)
  | logActionFailed (name : PyVal) (exc : String)
  | logExtFailed (name : PyVal) (exc : String)

/-- Result of running a dispatch entry point: its trace, and the exception
it let propagate to its caller (`none` when it returned normally). -/
structure DispatchResult where
  trace : List Ev
  raised : Option String

/-- The menu-item closure `_cb(_icon=None, _item=None, *, fn=callback,
name=node.action)` of `_build_pystray_menu`: `fn` and `name` are bound at
build time via default arguments.  Inside a `try`, when `fn` is set it is
called with a one-entry dict binding `"action"` to `name`, otherwise a
no-handler line is printed; an exception is caught and a failure line is
printed. -/
def runLeafCb (fn : Option Cb) (name : PyVal) : DispatchResult :=
  match fn with
  | some f =>
    match f.raises (.vDict [("action", name)]) with
    | none => ⟨[.invoked f.id (.vDict [("action", name)])], none⟩
    | some e => ⟨[.invoked f.id (.vDict [("action", name)]), .logActionFailed name e], none⟩
  | none => ⟨[.logNoHandler name], none⟩

/-- A built `pystray.MenuItem`.  Every item is constructed with
`default=False` (not represented).  A leaf stores the closure state of
`_cb` (`fn`, `name`) and its checked callback: `checkedCb = some b` models
a `checked=` lambda that returns `b` when pystray calls it, `none` models
`checked=None`. -/
inductive PMenuItem where
  | submenu (text : PyVal) (menu : List PMenuItem) (enabled : Bool)
  | leaf (text : PyVal) (fn : Option Cb) (name : PyVal) (enabled : Bool)
         (checkedCb : Option Bool)

mutual

/-- Embeds `_build_pystray_menu(nodes)`.  The `for` loop variable `node` is
captured *by reference* by the checked-state lambda
(`lambda _i: node.checked`, no default-argument binding, unlike `_cb`).
When pystray later calls that lambda, `node` holds the last node iterated
at this recursion level, so the lambda returns `(nodes.getLast).checked`;
the leaf therefore stores that call-time value.  The debug prints carry no
dispatch-relevant information and are not traced. -/
def _build_pystray_menu (reg : Registry) (nodes : List MenuNode) : List PMenuItem :=
  match nodes.getLast? with
  | some lastN => buildItems reg lastN nodes
  | none => []
termination_by (sizeOf nodes, 1)
decreasing_by exact Prod.Lex.right _ (Nat.lt_succ_self 0)

/-- The body of the `for node in nodes` loop of `_build_pystray_menu`,
with `lastN` the final value of the loop variable `node`. -/
def buildItems (reg : Registry) (lastN : MenuNode) : List MenuNode → List PMenuItem
  | [] => []
  | n :: rest => buildItem reg lastN n :: buildItems reg lastN rest
termination_by l => (sizeOf l, 0)
decreasing_by
  · apply Prod.Lex.left; simp_arith
  · apply Prod.Lex.left; simp_arith

/-- One iteration of the `_build_pystray_menu` loop: a node with (truthy)
children becomes a submenu and its `action` is never consulted; a leaf
binds `callback = _ACTIONS.get(node.action or "")` at build time and gets a
checked callback only when `node.checked` is true. -/
def buildItem (reg : Registry) (lastN : MenuNode) (n : MenuNode) : PMenuItem :=
  match n with
  | .mk t _ d _ (x :: xs) _ =>
    .submenu t (_build_pystray_menu reg (x :: xs)) (!d)
  | .mk t a d c [] _ =>
    .leaf t (lookupAction reg (pyOr a (.vStr ""))) a (!d)
      (if c then some lastN.checked else none)
termination_by (sizeOf n, 0)
decreasing_by apply Prod.Lex.left; simp_arith

end

/-- pystray invoking a built item's click callback: a leaf runs its bound
closure `_cb`; a submenu entry has no click callback. -/
def clickItem : PMenuItem → DispatchResult
  | .leaf _ fn nm _ _ => runLeafCb fn nm
  | .submenu _ _ _ => ⟨[], none⟩

/-- The previously registered `page.on_extension_event` handler, an
external collaborator identified by `id`; `raises evt` is the exception it
raises on `evt`, if any. -/
structure PrevHandler where
  id : Nat
  raises : ExtEvent → Option String

/-- Python `v != s` for a string `s`: unequal unless `v` is that string
(no equality coercion exists between strings and other types). -/
def pyNeStr (v : PyVal) (s : String) : Bool :=
  match v with
  | .vStr t => !(t == s)
  | _ => true

/-- Payload decoding in `_handle_ext`: a string payload gets one
`json.loads` attempt — modelled by the ambient parse function `jl`, with
`none` meaning the parse raised — and is kept as-is on failure; any other
payload is passed through. -/
def decodePayload (jl : String → Option PyVal) : PyVal → PyVal
  | .vStr s =>
    match jl s with
    | some v => v
    | none => .vStr s
  | v => v

/-- The `action_name` resolution in `_handle_ext`: `getattr(evt, "name", None)
or getattr(evt, "action", None)`; then, when the decoded payload is a dict
and the name is still falsy, `payload.get("action")`. -/
def resolveActionName (evt : ExtEvent) (payload : PyVal) : PyVal :=
  let an := pyOr evt.name evt.action
  match payload with
  | .vDict d => if truthy an then an else dictGet d "action"
  | _ => an

/-- Embeds `register_extension._handle_ext(evt)`.  When the event carries a truthy
extension name different from `EXTENSION_NAME`, the previous handler is
called with the unmodified event — *not* wrapped in `try` — and the
function returns.  Otherwise the action name and payload are resolved, the
registry is consulted with `action_name or ""`, a found callback is invoked
inside `try`/`except print`, and finally the previous handler is invoked
inside `try`/`except pass`. -/
def handleExt (jl : String → Option PyVal) (prev : Option PrevHandler)
    (reg : Registry) (evt : ExtEvent) : DispatchResult :=
  if truthy evt.extension_name && pyNeStr evt.extension_name EXTENSION_NAME then
    match prev with
    | some p => ⟨[.prevInvoked p.id evt], p.raises evt⟩
    | none => ⟨[], none⟩
  else
    let payload := decodePayload jl evt.data
    let an := resolveActionName evt payload
    let fnTrace :=
      match lookupAction reg (pyOr an (.vStr "")) with
      | some f =>
        match f.raises payload with
        | none => [Ev.invoked f.id payload]
        | some e => [Ev.invoked f.id payload, Ev.logExtFailed an e]
      | none => []
    let prevTrace :=
      match prev with
      | some p => [Ev.prevInvoked p.id evt]
      | none => []
    ⟨fnTrace ++ prevTrace, none⟩

/-- The callback invocations recorded in a trace. -/
def invokedOf (t : List Ev) : List (Nat × PyVal) :=
  t.filterMap (fun e => match e with
    | .invoked i p => some (i, p)
    | _ => none)

/-- Does this payload map the key `"action"` to the given name? -/
def payloadHasAction (p : PyVal) (name : String) : Bool :=
  match p with
  | .vDict d =>
    match dictGet d "action" with
    | .vStr s => s == name
    | _ => false
  | _ => false

/-- The native icon collaborator: `stopRaises n` is the exception raised by
the `n`-th `icon.stop()` call, if any. -/
structure NativeIcon where
  stopRaises : Nat → Option String

/-- A tray session's state, reduced to what `stop` touches: the native icon
and how many native stop calls happened so far (`0` before any start). -/
structure TrayIconState where
  icon : NativeIcon
  stops : Nat

/-- The native `icon.stop()` call: advances the call counter and reports
the exception it raised, if any. -/
def nativeStop (s : TrayIconState) : TrayIconState × Option String :=
  (⟨s.icon, s.stops + 1⟩, s.icon.stopRaises s.stops)

/-- Embeds `TrayApp.stop`: `try: self.icon.stop() except Exception: pass`. -/
def TrayApp.stop (s : TrayIconState) : TrayIconState × Option String :=
  ((nativeStop s).1, none)

/-- The default menu installed by `TrayApp.__init__` when the caller's menu
normalises to nothing: `MenuNode(text="Open", action="open")`,
`MenuNode(text="Exit", action="exit")`. -/
def defaultMenuNodes : List MenuNode :=
  [MenuNode.mk (.vStr "Open") (.vStr "open") false false [] .vNone,
   MenuNode.mk (.vStr "Exit") (.vStr "exit") false false [] .vNone]

/-- Menu-node computation of `TrayApp.__init__`:
`self._menu_nodes = _normalise_menu(menu or [])`, replaced by the default
open/exit entries when the normalised list is empty. -/
def trayAppMenuNodes (menu : Option (List MenuRec)) : List MenuNode :=
  let nodes := _normalise_menu (match menu with
    | some m => m
    | none => [])
  if nodes.isEmpty then defaultMenuNodes else nodes

/-- The registration performed by every `TrayApp.__init__`:
`register_action("open", <wrapper of on_open>)` then
`register_action("exit", <wrapper of on_exit>)`. -/
def trayAppRegister (openCb exitCb : Cb) (reg : Registry) : Registry :=
  register_action "exit" exitCb (register_action "open" openCb reg)

/-- Is this value Python `None` (equivalently: is the key absent)? -/
def isNone : PyVal → Bool
  | .vNone => true
  | _ => false

/-- Label resolution following the claim's words literally: select the
first *present* alias among `text`, `label`, `title` (a key is present when
it is bound to a value other than `None`), and use the placeholder only
when none of the three is present.  Stated for comparison with what the
code computes. -/
def firstPresentLabel (r : MenuRec) : PyVal :=
  if isNone r.text then
    (if isNone r.label then
      (if isNone r.title then .vStr "Menu item" else r.title)
     else r.label)
  else r.text

/-- Label resolution as the code computes it: the first alias whose value
is truthy, and the placeholder when no alias value is truthy. -/
def firstTruthyLabel (r : MenuRec) : PyVal :=
  if truthy r.text then r.text
  else if truthy r.label then r.label
  else if truthy r.title then r.title
  else .vStr "Menu item"

/-- A menu description uses only the round-trippable keys `text`, `action`,
`disabled`, `checked` and `items`: no `label`, `title`, `icon` or
`children`, recursively. -/
def usesRTKeys : List MenuRec → Bool
  | [] => true
  | .mk _ lb ti _ _ _ i itms chld :: rest =>
    isNone lb && isNone ti && isNone i && chld.isNone &&
    (match itms with
      | some l => usesRTKeys l
      | none => true) &&
    usesRTKeys rest

/-- Invariant of normaliser output: every node's `text` is truthy and its
`icon` is `None`, recursively (the latter only when the input carried no
`icon` keys). -/
def normedNodes : List MenuNode → Bool
  | [] => true
  | .mk t _ _ _ ch i :: rest =>
    truthy t && isNone i && normedNodes ch && normedNodes rest

theorem truthy_pyOr (a b : PyVal) : truthy (pyOr a b) = (truthy a || truthy b) := by
  unfold pyOr
  by_cases h : truthy a = true <;> simp [h]

/-- Claim C2 (corrected, counterexample): on a record binding `text` to
the empty string and `label` to `"L"`, the key `text` is present, so the
first-present-alias rule of the claim selects `""`; the code instead
resolves the label to `"L"` because resolution uses Python truthiness, not
presence. -/
theorem c2_counterexample :
    (_normalise_menu
        [MenuRec.mk (.vStr "") (.vStr "L") .vNone .vNone .vNone .vNone .vNone none none]).map
        MenuNode.text
      = [PyVal.vStr "L"]
    ∧ firstPresentLabel
        (MenuRec.mk (.vStr "") (.vStr "L") .vNone .vNone .vNone .vNone .vNone none none)
      = PyVal.vStr ""
    ∧ PyVal.vStr "L" ≠ PyVal.vStr "" := by
  refine ⟨?_, ?_, ?_⟩
  · simp [_normalise_menu, pyOr, truthy, MenuNode.text]
  · simp [firstPresentLabel, isNone, MenuRec.text, MenuRec.label, MenuRec.title]
  · intro h
    injection h with h'
    exact absurd h' (by decide)

/-- Claim C2 (amended): for every menu-description record, the normaliser
resolves the display label by trying the alias keys `text`, `label`,
`title` in that fixed order and selecting the first alias whose *value is
truthy* (for a string: non-empty), using the fixed placeholder
`"Menu item"` exactly when no alias value is truthy. -/
theorem c2_label_resolution (rs : List MenuRec) :
    (_normalise_menu rs).map MenuNode.text = rs.map firstTruthyLabel := by
  induction rs with
  | nil => simp [_normalise_menu]
  | cons r rest ih =>
    cases r with
    | mk t lb ti a d c i itms chld =>
      rw [_normalise_menu.eq_def]
      simp only [List.map_cons, MenuNode.text, firstTruthyLabel,
        MenuRec.text, MenuRec.label, MenuRec.title, pyOr, ih]

theorem isNone_iff (v : PyVal) : isNone v = true ↔ v = PyVal.vNone := by
  cases v <;> simp [isNone]

theorem menu_to_dict_length (ns : List MenuNode) :
    (menu_to_dict ns).length = ns.length := by
  induction ns using menu_to_dict.induct with
  | case1 => simp [menu_to_dict]
  | case2 t a d c ch i rest ih1 ih2 =>
    rw [menu_to_dict.eq_def]
    simp only [List.length_cons, ih2]

theorem truthy_label (t lb ti : PyVal) :
    truthy (pyOr t (pyOr lb (pyOr ti (.vStr "Menu item")))) = true := by
  have hm : truthy (PyVal.vStr "Menu item") = true := rfl
  rw [truthy_pyOr, truthy_pyOr, truthy_pyOr, hm]
  simp

theorem truthy_vBool (b : Bool) : truthy (.vBool b) = b := rfl

theorem pyOr_of_truthy {a : PyVal} (h : truthy a = true) (b : PyVal) : pyOr a b = a := by
  simp [pyOr, h]

theorem normalise_normed (rs : List MenuRec) (h : usesRTKeys rs = true) :
    normedNodes (_normalise_menu rs) = true := by
  induction rs using _normalise_menu.induct with
  | case1 => simp [_normalise_menu, normedNodes]
  | case2 t lb ti a d c i itms chld rest ih1 ih2 =>
    rw [usesRTKeys.eq_def] at h
    simp only [Bool.and_eq_true, isNone_iff, Option.isNone_iff_eq_none] at h
    obtain ⟨⟨⟨⟨⟨hlb, hti⟩, hi⟩, hchld⟩, hitms⟩, hrest⟩ := h
    subst hlb; subst hti; subst hi; subst hchld
    rw [_normalise_menu.eq_def]
    rcases itms with _ | l
    · simp only [normedNodes, truthy_label, isNone, ih2 hrest, Bool.true_and, Bool.and_true]
    · rcases l with _ | ⟨x, xs⟩
      · simp only [normedNodes, truthy_label, isNone, ih2 hrest, Bool.true_and, Bool.and_true]
      · simp only at hitms
        simp only [normedNodes, truthy_label, isNone, ih2 hrest, Bool.true_and, Bool.and_true]
        exact ih1 hitms

theorem normalise_menu_to_dict (ns : List MenuNode) (h : normedNodes ns = true) :
    _normalise_menu (menu_to_dict ns) = ns := by
  induction ns using menu_to_dict.induct with
  | case1 => simp [menu_to_dict, _normalise_menu]
  | case2 t a d c ch i rest ih1 ih2 =>
    rw [normedNodes.eq_def] at h
    simp only [Bool.and_eq_true, isNone_iff] at h
    obtain ⟨⟨⟨ht, hi⟩, hch⟩, hrest⟩ := h
    subst hi
    rcases ch with _ | ⟨x, xs⟩
    · simp only [menu_to_dict, _normalise_menu, pyOr_of_truthy ht, truthy_vBool, ih2 hrest]
    · obtain ⟨r, rs, hc⟩ : ∃ r rs, menu_to_dict (x :: xs) = r :: rs := by
        have hlen := menu_to_dict_length (x :: xs)
        rcases hmd : menu_to_dict (x :: xs) with _ | ⟨r, rs⟩
        · rw [hmd] at hlen; simp at hlen
        · exact ⟨r, rs, rfl⟩
      simp only [menu_to_dict]
      rw [hc]
      simp only [_normalise_menu, pyOr_of_truthy ht, truthy_vBool]
      rw [← hc, ih1 hch, ih2 hrest]

/-- Claim C4 (confirmed): for a menu description whose records use only the
keys `text`, `action`, `disabled`, `checked` and `items` (no `icon`),
normalising, emitting via `menu_to_dict` and normalising again yields the
same tree as normalising the original input. -/
theorem c4_roundtrip_fixed_point (rs : List MenuRec) (h : usesRTKeys rs = true) :
    _normalise_menu (menu_to_dict (_normalise_menu rs)) = _normalise_menu rs :=
  normalise_menu_to_dict (_normalise_menu rs) (normalise_normed rs h)

/-- Witness for C4 at a concrete nested two-level menu. -/
theorem c4_roundtrip_fixed_point_witness :
    usesRTKeys
        [MenuRec.mk (.vStr "Root") .vNone .vNone (.vStr "noop") (.vBool true) .vNone .vNone
          (some [MenuRec.mk (.vStr "Child") .vNone .vNone (.vStr "go") .vNone (.vBool true)
            .vNone none none]) none]
      = true
    ∧ _normalise_menu (menu_to_dict (_normalise_menu
        [MenuRec.mk (.vStr "Root") .vNone .vNone (.vStr "noop") (.vBool true) .vNone .vNone
          (some [MenuRec.mk (.vStr "Child") .vNone .vNone (.vStr "go") .vNone (.vBool true)
            .vNone none none]) none]))
      = _normalise_menu
        [MenuRec.mk (.vStr "Root") .vNone .vNone (.vStr "noop") (.vBool true) .vNone .vNone
          (some [MenuRec.mk (.vStr "Child") .vNone .vNone (.vStr "go") .vNone (.vBool true)
            .vNone none none]) none] :=
  ⟨by simp [usesRTKeys, isNone], c4_roundtrip_fixed_point _ (by simp [usesRTKeys, isNone])⟩

/-- Claim C3 (confirmed): a normalised node with a non-empty children list
is emitted as a submenu: the built item is the `submenu` form (which
carries no click closure), clicking it dispatches nothing, and the built
item does not depend on the node's own `action`, whatever the registry
holds. -/
theorem c3_submenu_ignores_action (reg : Registry) (lastN n : MenuNode)
    (h : n.children ≠ []) :
    buildItem reg lastN n
      = PMenuItem.submenu n.text (_build_pystray_menu reg n.children) (!n.disabled)
    ∧ clickItem (buildItem reg lastN n) = ⟨[], none⟩
    ∧ ∀ a : PyVal,
        buildItem reg lastN (MenuNode.mk n.text a n.disabled n.checked n.children n.icon)
          = buildItem reg lastN n := by
  cases n with
  | mk t a0 d c ch i =>
    rcases ch with _ | ⟨x, xs⟩
    · exact absurd rfl h
    · refine ⟨?_, ?_, fun a => ?_⟩ <;>
        simp [buildItem, clickItem, MenuNode.text, MenuNode.disabled, MenuNode.children]

/-- Witness for C3 at a concrete submenu node with an action and a
registry binding for that action. -/
theorem c3_submenu_ignores_action_witness :
    clickItem (buildItem
        (register_action "act" (Cb.mk 9 (fun _ => none)) emptyRegistry)
        (MenuNode.mk (.vStr "Sub") (.vStr "act") false false
          [MenuNode.mk (.vStr "c") .vNone false false [] .vNone] .vNone)
        (MenuNode.mk (.vStr "Sub") (.vStr "act") false false
          [MenuNode.mk (.vStr "c") .vNone false false [] .vNone] .vNone))
      = ⟨[], none⟩ :=
  (c3_submenu_ignores_action
    (register_action "act" (Cb.mk 9 (fun _ => none)) emptyRegistry)
    (MenuNode.mk (.vStr "Sub") (.vStr "act") false false
      [MenuNode.mk (.vStr "c") .vNone false false [] .vNone] .vNone)
    (MenuNode.mk (.vStr "Sub") (.vStr "act") false false
      [MenuNode.mk (.vStr "c") .vNone false false [] .vNone] .vNone)
    (by simp [MenuNode.children])).2.1

/-- Claim C5 (code bug, evaluated at the failing input):
`checked_cb = (lambda _i: node.checked) if node.checked else None`
late-binds the loop variable `node`, which after the loop holds the last
node of the level.  For the menu `[A(checked=true), B(checked=false)]` the
node `A` has `checked = true` at build time, yet its built checked
callback returns `false` — the checked value of `B` — when pystray calls
it. -/
theorem c5_checked_callback_late_binding :
    _build_pystray_menu emptyRegistry
        [MenuNode.mk (.vStr "A") .vNone false true [] .vNone,
         MenuNode.mk (.vStr "B") .vNone false false [] .vNone]
      = [PMenuItem.leaf (.vStr "A") none .vNone true (some false),
         PMenuItem.leaf (.vStr "B") none .vNone true none]
    ∧ (MenuNode.mk (.vStr "A") .vNone false true [] .vNone).checked = true := by
  constructor
  · simp [_build_pystray_menu, buildItems, buildItem, lookupAction, pyOr, truthy,
      emptyRegistry, MenuNode.checked, List.getLast?]
  · rfl

/-- Claim C9 (confirmed): `TrayApp.stop` wraps the native stop call in
`try`/`except pass`, so it never raises — for any native stop behaviour,
before any start (zero prior stop calls) and for two calls in a row. -/
theorem c9_stop_never_raises (s : TrayIconState) :
    (TrayApp.stop s).2 = none ∧ (TrayApp.stop (TrayApp.stop s).1).2 = none :=
  ⟨rfl, rfl⟩

/-- Claim C10 (confirmed): constructing a `TrayApp` with an absent or empty
menu installs the default two-item menu (an `"Open"` item with action
`"open"` and an `"Exit"` item with action `"exit"`), and every
construction registers callbacks under `"open"` and `"exit"`, overwriting
whatever the registry previously held under those names. -/
theorem c10_default_menu_and_builtin_actions :
    trayAppMenuNodes none
      = [MenuNode.mk (.vStr "Open") (.vStr "open") false false [] .vNone,
         MenuNode.mk (.vStr "Exit") (.vStr "exit") false false [] .vNone]
    ∧ trayAppMenuNodes (some [])
      = [MenuNode.mk (.vStr "Open") (.vStr "open") false false [] .vNone,
         MenuNode.mk (.vStr "Exit") (.vStr "exit") false false [] .vNone]
    ∧ ∀ (openCb exitCb : Cb) (reg : Registry),
        trayAppRegister openCb exitCb reg "open" = some openCb
        ∧ trayAppRegister openCb exitCb reg "exit" = some exitCb := by
  refine ⟨?_, ?_, fun o e reg => ⟨?_, ?_⟩⟩
  · simp [trayAppMenuNodes, _normalise_menu, defaultMenuNodes]
  · simp [trayAppMenuNodes, _normalise_menu, defaultMenuNodes]
  · simp [trayAppRegister, register_action]
  · simp [trayAppRegister, register_action]

theorem invokedOf_append (a b : List Ev) :
    invokedOf (a ++ b) = invokedOf a ++ invokedOf b := by
  simp [invokedOf]

/-- Counterexample to claim C1 as stated: with `"foo"` registered, an
extension event named `"foo"` whose `data` is `None` dispatches the
registered callback — but the payload passed to it is `None`, which does
not contain the key `"action"` mapped to `"foo"`. -/
theorem c1_counterexample :
    invokedOf (handleExt (fun _ => none) none
        (register_action "foo" (Cb.mk 0 (fun _ => none)) emptyRegistry)
        (ExtEvent.mk .vNone (.vStr "foo") .vNone .vNone)).trace
      = [(0, PyVal.vNone)]
    ∧ payloadHasAction PyVal.vNone "foo" = false :=
  ⟨rfl, rfl⟩

/-- Claim C1 (amended): for every *non-empty* action name, registering a
callback and then dispatching that name invokes exactly the
most-recently-registered callback for the name.  Via a built menu item's
click callback the payload is exactly the one-entry dict binding
`"action"` to the name; via the
extension event handler the payload is the event's (possibly JSON-decoded)
`data`, which need not contain the `"action"` key. -/
theorem c1_register_then_dispatch (name : String) (hname : name ≠ "")
    (f : Cb) (reg : Registry) (lastN : MenuNode)
    (t : PyVal) (dis chk : Bool) (ic : PyVal)
    (jl : String → Option PyVal) (prev : Option PrevHandler) (evt : ExtEvent)
    (hext : (truthy evt.extension_name && pyNeStr evt.extension_name EXTENSION_NAME) = false)
    (hres : resolveActionName evt (decodePayload jl evt.data) = .vStr name) :
    invokedOf (clickItem (buildItem (register_action name f reg) lastN
        (MenuNode.mk t (.vStr name) dis chk [] ic))).trace
      = [(f.id, PyVal.vDict [("action", PyVal.vStr name)])]
    ∧ invokedOf (handleExt jl prev (register_action name f reg) evt).trace
      = [(f.id, decodePayload jl evt.data)] := by
  have htr : truthy (PyVal.vStr name) = true := by simp [truthy, hname]
  have hreg : register_action name f reg name = some f := by
    simp [register_action, hname]
  constructor
  · rcases hr : f.raises (.vDict [("action", PyVal.vStr name)]) with _ | e <;>
      simp [buildItem, clickItem, runLeafCb, lookupAction, pyOr, htr, hreg, hr, invokedOf]
  · rcases hr : f.raises (decodePayload jl evt.data) with _ | e <;>
      cases prev <;>
        simp [handleExt, hext, hres, lookupAction, pyOr, htr, hreg, hr,
          invokedOf, List.filterMap_append]

/-- Witness for C1 (amended) at `name = "foo"` with a dict payload. -/
theorem c1_register_then_dispatch_witness :
    invokedOf (clickItem (buildItem
        (register_action "foo" (Cb.mk 1 (fun _ => none)) emptyRegistry)
        (MenuNode.mk (.vStr "x") .vNone false false [] .vNone)
        (MenuNode.mk (.vStr "Item") (.vStr "foo") false false [] .vNone))).trace
      = [(1, PyVal.vDict [("action", PyVal.vStr "foo")])]
    ∧ invokedOf (handleExt (fun _ => none) none
        (register_action "foo" (Cb.mk 1 (fun _ => none)) emptyRegistry)
        (ExtEvent.mk .vNone (.vStr "foo") .vNone (.vDict [("k", .vInt 3)]))).trace
      = [(1, PyVal.vDict [("k", PyVal.vInt 3)])] :=
  c1_register_then_dispatch "foo" (by decide) (Cb.mk 1 (fun _ => none))
    emptyRegistry (MenuNode.mk (.vStr "x") .vNone false false [] .vNone)
    (.vStr "Item") false false .vNone (fun _ => none) none
    (ExtEvent.mk .vNone (.vStr "foo") .vNone (.vDict [("k", .vInt 3)]))
    rfl rfl

/-- Counterexample to claim C6 as stated: an event whose extension name is
present (the empty string, not `None`) and differs from `"tray"` is not
forwarded-only — the guard tests truthiness, the empty name fails it, and
the action registry is consulted and dispatches a callback. -/
theorem c6_counterexample :
    invokedOf (handleExt (fun _ => none) (some (PrevHandler.mk 5 (fun _ => none)))
        (register_action "foo" (Cb.mk 2 (fun _ => none)) emptyRegistry)
        (ExtEvent.mk (.vStr "") (.vStr "foo") .vNone .vNone)).trace
      = [(2, PyVal.vNone)]
    ∧ PyVal.vStr "" ≠ PyVal.vNone
    ∧ PyVal.vStr "" ≠ PyVal.vStr EXTENSION_NAME := by
  refine ⟨rfl, fun h => PyVal.noConfusion h, fun h => ?_⟩
  injection h with h'
  exact absurd h' (by decide)

/-- Claim C6 (amended): for every event whose extension name is *truthy*
(non-empty) and differs from `"tray"`, only the previous handler runs,
receiving the unmodified event; no callback is invoked and the result is
the same for every registry and JSON decoder — the registry is never
consulted. -/
theorem c6_foreign_event_forwarded (jl jl' : String → Option PyVal)
    (p : PrevHandler) (reg reg' : Registry) (evt : ExtEvent)
    (hpresent : truthy evt.extension_name = true)
    (hdiff : pyNeStr evt.extension_name EXTENSION_NAME = true) :
    handleExt jl (some p) reg evt = ⟨[.prevInvoked p.id evt], p.raises evt⟩
    ∧ handleExt jl (some p) reg evt = handleExt jl' (some p) reg' evt
    ∧ invokedOf (handleExt jl (some p) reg evt).trace = [] := by
  have hguard : (truthy evt.extension_name
      && pyNeStr evt.extension_name EXTENSION_NAME) = true := by
    simp [hpresent, hdiff]
  refine ⟨?_, ?_, ?_⟩ <;> simp [handleExt, hguard, invokedOf]

/-- Witness for C6 (amended) at a concrete foreign-named event and two
different registries. -/
theorem c6_foreign_event_forwarded_witness :
    handleExt (fun _ => none) (some (PrevHandler.mk 7 (fun _ => none)))
        emptyRegistry (ExtEvent.mk (.vStr "other") (.vStr "foo") .vNone .vNone)
      = ⟨[.prevInvoked 7 (ExtEvent.mk (.vStr "other") (.vStr "foo") .vNone .vNone)], none⟩
    ∧ handleExt (fun _ => none) (some (PrevHandler.mk 7 (fun _ => none)))
        emptyRegistry (ExtEvent.mk (.vStr "other") (.vStr "foo") .vNone .vNone)
      = handleExt (fun _ => some .vNone) (some (PrevHandler.mk 7 (fun _ => none)))
        (register_action "foo" (Cb.mk 3 (fun _ => none)) emptyRegistry)
        (ExtEvent.mk (.vStr "other") (.vStr "foo") .vNone .vNone)
    ∧ invokedOf (handleExt (fun _ => none) (some (PrevHandler.mk 7 (fun _ => none)))
        emptyRegistry (ExtEvent.mk (.vStr "other") (.vStr "foo") .vNone .vNone)).trace
      = [] :=
  c6_foreign_event_forwarded (fun _ => none) (fun _ => some .vNone)
    (PrevHandler.mk 7 (fun _ => none)) emptyRegistry
    (register_action "foo" (Cb.mk 3 (fun _ => none)) emptyRegistry)
    (ExtEvent.mk (.vStr "other") (.vStr "foo") .vNone .vNone)
    rfl rfl

/-- Counterexample to claim C7 as stated: dispatching the unregistered
action `"nosuch"` through the extension handler raises nothing and invokes
nothing, but also logs nothing — the whole trace is empty, a *silent*
no-op rather than a logged one. -/
theorem c7_counterexample :
    handleExt (fun _ => none) none emptyRegistry
        (ExtEvent.mk .vNone (.vStr "nosuch") .vNone .vNone)
      = ⟨[], none⟩ :=
  rfl

/-- Claim C7 (amended): dispatching an action name with no registry entry
raises no exception and invokes no callback; a built menu item whose
build-time lookup missed logs a no-handler line when clicked, while the
extension handler is a silent no-op that still invokes only the previous
handler. -/
theorem c7_unregistered_action_noop (reg : Registry) (lastN : MenuNode)
    (t nact ic : PyVal) (dis chk : Bool)
    (hmenu : lookupAction reg (pyOr nact (.vStr "")) = none)
    (jl : String → Option PyVal) (prev : Option PrevHandler) (evt : ExtEvent)
    (hext : (truthy evt.extension_name && pyNeStr evt.extension_name EXTENSION_NAME) = false)
    (hmiss : lookupAction reg
        (pyOr (resolveActionName evt (decodePayload jl evt.data)) (.vStr "")) = none) :
    clickItem (buildItem reg lastN (MenuNode.mk t nact dis chk [] ic))
      = ⟨[Ev.logNoHandler nact], none⟩
    ∧ (handleExt jl prev reg evt).raised = none
    ∧ invokedOf (handleExt jl prev reg evt).trace = []
    ∧ (handleExt jl prev reg evt).trace
        = (match prev with
            | some p => [Ev.prevInvoked p.id evt]
            | none => []) := by
  refine ⟨?_, ?_, ?_, ?_⟩
  · simp [buildItem, clickItem, runLeafCb, hmenu]
  · cases prev <;> simp [handleExt, hext, hmiss]
  · cases prev <;> simp [handleExt, hext, hmiss, invokedOf]
  · cases prev <;> simp [handleExt, hext, hmiss]

/-- Witness for C7 (amended): the name `"nosuch"` against an empty
registry, through a built menu leaf and through the extension handler. -/
theorem c7_unregistered_action_noop_witness :
    clickItem (buildItem emptyRegistry
        (MenuNode.mk (.vStr "x") .vNone false false [] .vNone)
        (MenuNode.mk (.vStr "Item") (.vStr "nosuch") false false [] .vNone))
      = ⟨[Ev.logNoHandler (.vStr "nosuch")], none⟩
    ∧ (handleExt (fun _ => none) (some (PrevHandler.mk 4 (fun _ => none)))
        emptyRegistry (ExtEvent.mk .vNone (.vStr "nosuch") .vNone .vNone)).raised = none
    ∧ invokedOf (handleExt (fun _ => none) (some (PrevHandler.mk 4 (fun _ => none)))
        emptyRegistry (ExtEvent.mk .vNone (.vStr "nosuch") .vNone .vNone)).trace = []
    ∧ (handleExt (fun _ => none) (some (PrevHandler.mk 4 (fun _ => none)))
        emptyRegistry (ExtEvent.mk .vNone (.vStr "nosuch") .vNone .vNone)).trace
      = [Ev.prevInvoked 4 (ExtEvent.mk .vNone (.vStr "nosuch") .vNone .vNone)] :=
  c7_unregistered_action_noop emptyRegistry
    (MenuNode.mk (.vStr "x") .vNone false false [] .vNone)
    (.vStr "Item") (.vStr "nosuch") .vNone false false rfl
    (fun _ => none) (some (PrevHandler.mk 4 (fun _ => none)))
    (ExtEvent.mk .vNone (.vStr "nosuch") .vNone .vNone) rfl rfl

/-- Claim C8 (confirmed): a callback that raises during dispatch is caught
at the dispatch boundary and the failure is logged together with the
action name; the dispatch returns normally (nothing propagates), so the
caller's control flow — and with it any subsequent dispatch — is
unaffected.  Shown for both dispatch boundaries. -/
theorem c8_callback_exception_contained (f : Cb) (name : PyVal) (e : String)
    (hr : f.raises (.vDict [("action", name)]) = some e)
    (g : Cb) (e' : String)
    (jl : String → Option PyVal) (prev : Option PrevHandler)
    (reg : Registry) (evt : ExtEvent)
    (hext : (truthy evt.extension_name && pyNeStr evt.extension_name EXTENSION_NAME) = false)
    (hfound : lookupAction reg
        (pyOr (resolveActionName evt (decodePayload jl evt.data)) (.vStr "")) = some g)
    (hr' : g.raises (decodePayload jl evt.data) = some e') :
    runLeafCb (some f) name
      = ⟨[Ev.invoked f.id (.vDict [("action", name)]), Ev.logActionFailed name e], none⟩
    ∧ (handleExt jl prev reg evt).raised = none
    ∧ (handleExt jl prev reg evt).trace
        = [Ev.invoked g.id (decodePayload jl evt.data),
           Ev.logExtFailed (resolveActionName evt (decodePayload jl evt.data)) e']
          ++ (match prev with
              | some p => [Ev.prevInvoked p.id evt]
              | none => []) := by
  refine ⟨?_, ?_, ?_⟩
  · simp [runLeafCb, hr]
  · cases prev <;> simp [handleExt, hext, hfound, hr']
  · cases prev <;> simp [handleExt, hext, hfound, hr']

/-- Witness for C8 at a callback that always raises `"boom"`. -/
theorem c8_callback_exception_contained_witness :
    runLeafCb (some (Cb.mk 6 (fun _ => some "boom"))) (.vStr "foo")
      = ⟨[Ev.invoked 6 (.vDict [("action", .vStr "foo")]),
          Ev.logActionFailed (.vStr "foo") "boom"], none⟩
    ∧ (handleExt (fun _ => none) none
        (register_action "foo" (Cb.mk 6 (fun _ => some "boom")) emptyRegistry)
        (ExtEvent.mk .vNone (.vStr "foo") .vNone .vNone)).raised = none
    ∧ (handleExt (fun _ => none) none
        (register_action "foo" (Cb.mk 6 (fun _ => some "boom")) emptyRegistry)
        (ExtEvent.mk .vNone (.vStr "foo") .vNone .vNone)).trace
      = [Ev.invoked 6 PyVal.vNone, Ev.logExtFailed (.vStr "foo") "boom"] ++ [] :=
  c8_callback_exception_contained (Cb.mk 6 (fun _ => some "boom")) (.vStr "foo")
    "boom" rfl (Cb.mk 6 (fun _ => some "boom")) "boom" (fun _ => none) none
    (register_action "foo" (Cb.mk 6 (fun _ => some "boom")) emptyRegistry)
    (ExtEvent.mk .vNone (.vStr "foo") .vNone .vNone) rfl rfl rfl

end FletTray
